import Mathlib

/-!
Verification of the Pi Builder Python SDK (`packages/core/src/api/sdk_python.py`).

The SDK is a synchronous HTTP client: `PiBuilderSDK._request` builds one
request (URL, headers, optional JSON body), issues it up to `retries` times
with exponential backoff, unwraps the `{success, data, error, timestamp}`
response envelope, and either returns the envelope's `data` or raises the
last recorded error.  The facade methods (`list_agents`, `list_tasks`,
`update_task`, `list_providers`, ...) are thin wrappers.

The embedding below is a shallow model of that file.  JSON values are the
inductive `Json`; Python exceptions relevant to the SDK are `PyError`;
the network is an oracle `outcomes : Nat → AttemptOutcome` giving, for each
attempt index, either a raised transport-level exception or the parsed JSON
response body.  Time is not modelled; instead every `time.sleep` performed by
the retry loop is recorded (in milliseconds, so `(2 ** attempt) * 0.1`
seconds becomes `2 ^ attempt * 100` ms) in the returned trace, and the
number of issued attempts is counted.
-/

namespace PiBuilder

/-- JSON values as produced by `json.loads`.  Numbers are modelled as
integers (no claim involves fractional numbers); objects are association
lists in key order, with distinct keys (Python dicts cannot hold duplicate
keys). -/
inductive Json where
  | null : Json
  | bool (b : Bool) : Json
  | num (n : Int) : Json
  | str (s : String) : Json
  | arr (elems : List Json) : Json
  | obj (fields : List (String × Json)) : Json

/-- Python truthiness (`bool(x)`) of a JSON-decoded value: `None`, `False`,
`0`, `""`, `[]` and `{}` are falsy, everything else truthy. -/
def Json.truthy : Json → Bool
  | .null => false
  | .bool b => b
  | .num n => n != 0
  | .str s => s != ""
  | .arr elems => !elems.isEmpty
  | .obj fields => !fields.isEmpty

/-- `d.get(k)` / `d.get(k, default)` support: look a key up in an
association list standing for a Python dict. -/
def lookupField {α : Type} (fields : List (String × α)) (k : String) : Option α :=
  match fields with
  | [] => none
  | f :: rest => if f.1 = k then some f.2 else lookupField rest k

/- Python `str(x)` and `repr(x)` of a JSON-decoded value.  String escaping
inside `repr` is not modelled; no claim depends on it. -/
mutual

def Json.pyStr : Json → String
  | .null => "None"
  | .bool true => "True"
  | .bool false => "False"
  | .num n => toString n
  | .str s => s
  | .arr elems => "[" ++ Json.pyReprList elems ++ "]"
  | .obj fields => "\x7b" ++ Json.pyReprFields fields ++ "\x7d"

def Json.pyRepr : Json → String
  | .null => "None"
  | .bool true => "True"
  | .bool false => "False"
  | .num n => toString n
  | .str s => "\x27" ++ s ++ "\x27"
  | .arr elems => "[" ++ Json.pyReprList elems ++ "]"
  | .obj fields => "\x7b" ++ Json.pyReprFields fields ++ "\x7d"

def Json.pyReprList : List Json → String
  | [] => ""
  | [x] => Json.pyRepr x
  | x :: xs => Json.pyRepr x ++ ", " ++ Json.pyReprList xs

def Json.pyReprFields : List (String × Json) → String
  | [] => ""
  | [f] => "\x27" ++ f.1 ++ "\x27: " ++ Json.pyRepr f.2
  | f :: fs => "\x27" ++ f.1 ++ "\x27: " ++ Json.pyRepr f.2 ++ ", " ++ Json.pyReprFields fs

end

/- Model of `json.dumps` with its default separators (a comma-space between
items and a colon-space after keys).  String escaping is not modelled; no
claim depends on it. -/
mutual

def Json.dump : Json → String
  | .null => "null"
  | .bool true => "true"
  | .bool false => "false"
  | .num n => toString n
  | .str s => "\"" ++ s ++ "\""
  | .arr elems => "[" ++ Json.dumpList elems ++ "]"
  | .obj fields => "\x7b" ++ Json.dumpFields fields ++ "\x7d"

def Json.dumpList : List Json → String
  | [] => ""
  | [x] => Json.dump x
  | x :: xs => Json.dump x ++ ", " ++ Json.dumpList xs

def Json.dumpFields : List (String × Json) → String
  | [] => ""
  | [f] => "\"" ++ f.1 ++ "\": " ++ Json.dump f.2
  | f :: fs => "\"" ++ f.1 ++ "\": " ++ Json.dump f.2 ++ ", " ++ Json.dumpFields fs

end

/-- The Python exceptions the SDK can raise or catch.  `valueError` carries
the argument object passed to `ValueError(...)` (the envelope's `error`
value, or the fallback string); `urlError` stands for `urllib.error.URLError`
and kin raised by the transport; `attributeError` is raised by `x.get(...)`
on a non-dict (its CPython message text is modelled); `typeError` is raised
by iterating a non-iterable or by dataclass construction with wrong keys
(its CPython message text is not modelled); `exception` is a bare
`Exception(msg)`. -/
inductive PyError where
  | valueError (arg : Json) : PyError
  | urlError (msg : String) : PyError
  | attributeError (msg : String) : PyError
  | typeError : PyError
  | exception (msg : String) : PyError

/-- `str(e)` of a raised SDK error: for `ValueError(x)` this is `str(x)`. -/
def PyError.message : PyError → String
  | .valueError arg => arg.pyStr
  | .urlError msg => msg
  | .attributeError msg => msg
  | .typeError => "TypeError"
  | .exception msg => msg

/-- The `AttributeError` CPython raises for `x.get(...)` when `x` is not a
dict. -/
def noGetAttributeError (j : Json) : PyError :=
  .attributeError ("\x27" ++ (match j with
    | .null => "NoneType"
    | .bool _ => "bool"
    | .num _ => "int"
    | .str _ => "str"
    | .arr _ => "list"
    | .obj _ => "dict") ++ "\x27 object has no attribute \x27get\x27")

/-- Session configuration held by a `PiBuilderSDK` instance (set once in
`__init__`, immutable afterwards). -/
structure PiBuilderSDK where
  api_url : String
  api_key : Option String
  timeout : Nat
  retries : Nat

/-- Python `s.rstrip('/')`: drop all trailing slash characters. -/
def rstripSlash (s : String) : String :=
  String.mk ((s.toList.reverse.dropWhile (fun c => c = '/')).reverse)

/-- `PiBuilderSDK.__init__`: stores the arguments, stripping trailing
slashes from the base URL (`api_url.rstrip('/')`). -/
def mkSDK (api_url : String) (api_key : Option String) (timeout : Nat) (retries : Nat) :
    PiBuilderSDK :=
  { api_url := rstripSlash api_url
    api_key := api_key
    timeout := timeout
    retries := retries }

/-- Header assembly in `_request`: always `Content-Type: application/json`;
`Authorization: Bearer <key>` is added under `if self.api_key:`, i.e. only
when the key is present and non-empty (Python truthiness of an
`Optional[str]`). -/
def requestHeaders (sdk : PiBuilderSDK) : List (String × String) :=
  [("Content-Type", "application/json")] ++
    match sdk.api_key with
    | some k => if k = "" then [] else [("Authorization", "Bearer " ++ k)]
    | none => []

/-- Body serialization in `_request`:
`body_data = json.dumps(body).encode() if body else None` — an absent or
empty dict (both falsy) yields no payload, otherwise the JSON serialization
of the dict. -/
def requestBodyData (body : Option (List (String × Json))) : Option String :=
  match body with
  | some fields => if fields.isEmpty then none else some (Json.dump (.obj fields))
  | none => none

/-- What one attempt of the retry loop observes from the outside world:
either the transport raised an exception (connection error, timeout,
malformed JSON from `json.loads`, ...), or a parsed JSON response body. -/
inductive AttemptOutcome where
  | exn (e : PyError) : AttemptOutcome
  | response (body : Json) : AttemptOutcome

/-- The body of one iteration of the retry loop in `_request`, up to the
`except` clause: `.ok d` models `return data.get('data')`, `.error e`
models an exception `e` propagating to `except (URLError, Exception)`.
A non-dict response raises `AttributeError` at `data.get('success')`; a
dict whose `success` is absent or falsy raises
`ValueError(data.get('error', 'Request failed'))`. -/
def attemptStep : AttemptOutcome → Except PyError Json
  | .exn e => .error e
  | .response body =>
    match body with
    | .obj fields =>
      if ((lookupField fields "success").getD Json.null).truthy then
        .ok ((lookupField fields "data").getD Json.null)
      else
        .error (.valueError ((lookupField fields "error").getD (.str "Request failed")))
    | other => .error (noGetAttributeError other)

/-- The result of one `_request` call together with the attempts issued and
the sleeps performed. -/
inductive ReqResult where
  | ok (data : Json) : ReqResult
  | err (e : PyError) : ReqResult

/-- Observable record of a `_request` run. -/
structure LoopResult where
  outcome : ReqResult
  attempts : Nat
  delaysMs : List Nat

/-- The retry loop `for attempt in range(self.retries): ...` followed by
`raise last_error or Exception('Request failed')`.  Arguments: the attempt
oracle, the number of iterations still to run, the index of the next
attempt (`attempt` in the source), and the `last_error` accumulator.
After a failed attempt the loop sleeps `(2 ** attempt) * 0.1` seconds —
recorded as `2 ^ attempt * 100` milliseconds — unless it was the final
attempt (`attempt < self.retries - 1` guards the sleep, i.e. at least one
more iteration remains). -/
def runLoop (outcomes : Nat → AttemptOutcome) :
    Nat → Nat → Option PyError → LoopResult
  | 0, _, lastError =>
    ⟨.err (lastError.getD (.exception "Request failed")), 0, []⟩
  | remaining + 1, idx, _ =>
    match attemptStep (outcomes idx) with
    | .ok d => ⟨.ok d, 1, []⟩
    | .error e =>
      let rest := runLoop outcomes remaining (idx + 1) (some e)
      ⟨rest.outcome, rest.attempts + 1,
        if remaining = 0 then rest.delaysMs else (2 ^ idx * 100) :: rest.delaysMs⟩

/-- Trace of one `PiBuilderSDK._request(method, path, body)` call:
the request line that every attempt reuses, and the loop's result. -/
structure RequestTrace where
  method : String
  url : String
  headers : List (String × String)
  bodyData : Option String
  result : ReqResult
  attempts : Nat
  delaysMs : List Nat

/-- `PiBuilderSDK._request`: builds `url = api_url + path`, the headers and
the optional body payload, then runs the bounded retry loop. -/
def request (sdk : PiBuilderSDK) (method path : String)
    (body : Option (List (String × Json))) (outcomes : Nat → AttemptOutcome) :
    RequestTrace :=
  let lr := runLoop outcomes sdk.retries 0 none
  { method := method
    url := sdk.api_url ++ path
    headers := requestHeaders sdk
    bodyData := requestBodyData body
    result := lr.outcome
    attempts := lr.attempts
    delaysMs := lr.delaysMs }

/-- `str(e)` of the terminal failure of a run, when it failed. -/
def RequestTrace.errMessage (t : RequestTrace) : Option String :=
  match t.result with
  | .err e => some e.message
  | .ok _ => none

/-- The `Agent` dataclass.  Python dataclasses do not check field types at
runtime, so the fields hold the raw values the server returned. -/
structure Agent where
  id : Json
  name : Json
  type : Json
  status : Json
  capabilities : Json

/-- The `Task` dataclass; `completed_at` defaults to `None`. -/
structure Task where
  id : Json
  name : Json
  status : Json
  priority : Json
  created_at : Json
  completed_at : Json

/-- `Agent(**agent)`: succeeds when `agent` is a dict supplying every
required field and nothing else; any mismatch raises `TypeError`. -/
def mkAgent (j : Json) : Except PyError Agent :=
  match j with
  | .obj fields =>
    match lookupField fields "id", lookupField fields "name", lookupField fields "type",
        lookupField fields "status", lookupField fields "capabilities" with
    | some i, some n, some t, some s, some c =>
      if fields.all (fun f =>
          f.1 = "id" ∨ f.1 = "name" ∨ f.1 = "type" ∨ f.1 = "status" ∨ f.1 = "capabilities") then
        .ok ⟨i, n, t, s, c⟩
      else .error .typeError
    | _, _, _, _, _ => .error .typeError
  | _ => .error .typeError

/-- `Task(**task)`: like `mkAgent`, with `completed_at` optional (defaulting
to `None`). -/
def mkTask (j : Json) : Except PyError Task :=
  match j with
  | .obj fields =>
    match lookupField fields "id", lookupField fields "name", lookupField fields "status",
        lookupField fields "priority", lookupField fields "created_at" with
    | some i, some n, some s, some p, some c =>
      if fields.all (fun f =>
          f.1 = "id" ∨ f.1 = "name" ∨ f.1 = "status" ∨ f.1 = "priority" ∨
            f.1 = "created_at" ∨ f.1 = "completed_at") then
        .ok ⟨i, n, s, p, c, (lookupField fields "completed_at").getD Json.null⟩
      else .error .typeError
    | _, _, _, _, _ => .error .typeError
  | _ => .error .typeError

/-- Python `a or b` on JSON-decoded values (used as `data or []`). -/
def pyOr (a b : Json) : Json :=
  if a.truthy then a else b

/-- Iterating a JSON-decoded Python value in a list comprehension: lists
yield their elements, strings their characters, dicts their keys; anything
else raises `TypeError`. -/
def jsonIter : Json → Except PyError (List Json)
  | .arr elems => .ok elems
  | .str s => .ok (s.toList.map (fun c => Json.str (String.mk [c])))
  | .obj fields => .ok (fields.map (fun f => Json.str f.1))
  | _ => .error .typeError

/-- `PiBuilderSDK.list_agents`'s request (`GET /api/agents`, no body). -/
def list_agentsCall (sdk : PiBuilderSDK) (outcomes : Nat → AttemptOutcome) : RequestTrace :=
  request sdk "GET" "/api/agents" none outcomes

/-- `PiBuilderSDK.list_agents`:
`[Agent(**agent) for agent in data or []]`. -/
def list_agents (sdk : PiBuilderSDK) (outcomes : Nat → AttemptOutcome) :
    Except PyError (List Agent) :=
  match (list_agentsCall sdk outcomes).result with
  | .err e => .error e
  | .ok data =>
    match jsonIter (pyOr data (Json.arr [])) with
    | .error e => .error e
    | .ok items => items.mapM mkAgent

/-- Path construction in `PiBuilderSDK.list_tasks`: append `status=...` and
`priority=...` query parameters for each truthy (present, non-empty) filter,
joined with an ampersand after a question mark. -/
def list_tasks_path (status priority : Option String) : String :=
  let query_params :=
    (match status with
      | some s => if s = "" then [] else ["status=" ++ s]
      | none => []) ++
    (match priority with
      | some p => if p = "" then [] else ["priority=" ++ p]
      | none => [])
  if query_params.isEmpty then "/api/tasks"
  else "/api/tasks?" ++ String.intercalate "&" query_params

/-- `PiBuilderSDK.list_tasks`'s request (`GET`, filtered path, no body). -/
def list_tasksCall (sdk : PiBuilderSDK) (status priority : Option String)
    (outcomes : Nat → AttemptOutcome) : RequestTrace :=
  request sdk "GET" (list_tasks_path status priority) none outcomes

/-- `PiBuilderSDK.list_tasks`: `[Task(**task) for task in data or []]`. -/
def list_tasks (sdk : PiBuilderSDK) (status priority : Option String)
    (outcomes : Nat → AttemptOutcome) : Except PyError (List Task) :=
  match (list_tasksCall sdk status priority outcomes).result with
  | .err e => .error e
  | .ok data =>
    match jsonIter (pyOr data (Json.arr [])) with
    | .error e => .error e
    | .ok items => items.mapM mkTask

/-- Body construction in `PiBuilderSDK.update_task`: start from an empty
dict and add `status` and `priority` only under `if status:` / `if
priority:` (present and non-empty). -/
def update_task_body (status priority : Option String) : List (String × Json) :=
  (match status with
    | some s => if s = "" then [] else [("status", Json.str s)]
    | none => []) ++
  (match priority with
    | some p => if p = "" then [] else [("priority", Json.str p)]
    | none => [])

/-- `PiBuilderSDK.update_task`'s request (`PUT /api/tasks/<id>` with the
constructed body dict). -/
def update_taskCall (sdk : PiBuilderSDK) (task_id : String)
    (status priority : Option String) (outcomes : Nat → AttemptOutcome) : RequestTrace :=
  request sdk "PUT" ("/api/tasks/" ++ task_id) (some (update_task_body status priority)) outcomes

/-- `PiBuilderSDK.update_task`: request then `Task(**data)`. -/
def update_task (sdk : PiBuilderSDK) (task_id : String)
    (status priority : Option String) (outcomes : Nat → AttemptOutcome) :
    Except PyError Task :=
  match (update_taskCall sdk task_id status priority outcomes).result with
  | .err e => .error e
  | .ok data => mkTask data

/-- `PiBuilderSDK.list_providers`'s request (`GET /api/providers`, no
body). -/
def list_providersCall (sdk : PiBuilderSDK) (outcomes : Nat → AttemptOutcome) : RequestTrace :=
  request sdk "GET" "/api/providers" none outcomes

/-- `PiBuilderSDK.list_providers`: `data.get('providers', [])` — on a dict
this is the `providers` field (or an empty list when missing); on any other
value, `None` included, attribute lookup of `get` raises
`AttributeError`. -/
def list_providers (sdk : PiBuilderSDK) (outcomes : Nat → AttemptOutcome) :
    Except PyError Json :=
  match (list_providersCall sdk outcomes).result with
  | .err e => .error e
  | .ok data =>
    match data with
    | .obj fields => .ok ((lookupField fields "providers").getD (.arr []))
    | other => .error (noGetAttributeError other)


/-! ## General lemmas about the retry loop -/

/-- When every attempt fails, the loop runs all remaining iterations:
it issues one request per iteration, sleeps `2 ^ attempt * 100` ms after
every attempt but the last, and ends in a failure. -/
theorem runLoop_all_fail (outcomes : Nat → AttemptOutcome)
    (h : ∀ i, ∃ e, attemptStep (outcomes i) = .error e) :
    ∀ r idx le,
      (runLoop outcomes r idx le).attempts = r ∧
      (runLoop outcomes r idx le).delaysMs =
        (List.range (r - 1)).map (fun j => 2 ^ (idx + j) * 100) ∧
      ∃ e, (runLoop outcomes r idx le).outcome = .err e := by
  intro r
  induction r with
  | zero =>
    intro idx le
    exact ⟨rfl, by simp [runLoop], ⟨le.getD (.exception "Request failed"), rfl⟩⟩
  | succ n ih =>
    intro idx le
    obtain ⟨e, he⟩ := h idx
    have hrest := ih (idx + 1) (some e)
    refine ⟨?_, ?_, ?_⟩
    · simp [runLoop, he, hrest.1]
    · simp only [runLoop, he]
      cases n with
      | zero => simpa using hrest.2.1
      | succ m =>
        have hr := hrest.2.1
        simp only [Nat.succ_sub_one] at hr ⊢
        simp only [if_neg (Nat.succ_ne_zero m), hr, List.range_succ_eq_map,
          List.map_cons, List.map_map]
        refine congrArg₂ List.cons (by simp) ?_
        refine List.map_congr_left (fun a _ => ?_)
        simp [Function.comp]
        ring_nf
    · obtain ⟨e2, he2⟩ := hrest.2.2
      exact ⟨e2, by simp [runLoop, he, he2]⟩

/-- When the loop terminates in a failure, the error raised is exactly the
error recorded from the last attempt issued. -/
theorem runLoop_err_from_last (outcomes : Nat → AttemptOutcome) :
    ∀ r idx le e, (runLoop outcomes (r + 1) idx le).outcome = .err e →
      attemptStep (outcomes (idx + r)) = .error e := by
  intro r
  induction r with
  | zero =>
    intro idx le e h
    cases hs : attemptStep (outcomes idx) with
    | ok d => simp [runLoop, hs] at h
    | error e2 =>
      simp [runLoop, hs] at h
      subst h
      simpa using hs
  | succ n ih =>
    intro idx le e h
    cases hs : attemptStep (outcomes idx) with
    | ok d => simp [runLoop, hs] at h
    | error e2 =>
      have hrec : (runLoop outcomes (n + 1) (idx + 1) (some e2)).outcome = .err e := by
        simpa [runLoop, hs] using h
      have := ih (idx + 1) (some e2) e hrec
      simpa [Nat.add_assoc, Nat.add_comm 1 n] using this

/-- When an attempt succeeds, the loop returns that attempt's data at once:
one attempt, no sleep. -/
theorem runLoop_first_ok (outcomes : Nat → AttemptOutcome) (idx : Nat) (d : Json)
    (h : attemptStep (outcomes idx) = .ok d) :
    ∀ r le, runLoop outcomes (r + 1) idx le = ⟨.ok d, 1, []⟩ := by
  intro r le
  simp [runLoop, h]

/-! ## Concrete fixtures used by witnesses and counterexamples -/

/-- A response whose envelope reports a logical failure with no error
message. -/
def alwaysFail : Nat → AttemptOutcome := fun _ =>
  .response (Json.obj [("success", Json.bool false)])

/-- A response whose envelope reports success with string data. -/
def alwaysOk : Nat → AttemptOutcome := fun _ =>
  .response (Json.obj [("success", Json.bool true), ("data", Json.str "D")])

/-- A failing envelope whose `error` field is present but `null`. -/
def alwaysNullError : Nat → AttemptOutcome := fun _ =>
  .response (Json.obj [("success", Json.bool false), ("error", Json.null)])

/-- A failing envelope carrying the server error string `"boom"`. -/
def alwaysBoom : Nat → AttemptOutcome := fun _ =>
  .response (Json.obj [("success", Json.bool false), ("error", Json.str "boom")])

/-- A successful envelope with no `data` field at all. -/
def alwaysNullData : Nat → AttemptOutcome := fun _ =>
  .response (Json.obj [("success", Json.bool true)])

/-! ## The claims -/

/-- Claim C1: for every configured retry count, a `_request` call whose
every attempt fails (transport error, or an envelope whose `success` field
is falsy) issues exactly `retries` HTTP attempts before the terminal
failure, and the delay between attempt `i` and attempt `i + 1` is
`2 ^ i * 0.1` seconds (recorded here as `2 ^ i * 100` ms) for
`i = 0 .. retries - 2`, with no delay after the final attempt: the list of
sleeps is exactly `[2 ^ 0 * 100, ..., 2 ^ (retries - 2) * 100]`. -/
theorem request_all_fail_attempts_and_backoff (sdk : PiBuilderSDK) (method path : String)
    (body : Option (List (String × Json))) (outcomes : Nat → AttemptOutcome)
    (h : ∀ i, ∃ e, attemptStep (outcomes i) = .error e) :
    (∃ e, (request sdk method path body outcomes).result = .err e) ∧
    (request sdk method path body outcomes).attempts = sdk.retries ∧
    (request sdk method path body outcomes).delaysMs =
      (List.range (sdk.retries - 1)).map (fun i => 2 ^ i * 100) := by
  have hl := runLoop_all_fail outcomes h sdk.retries 0 none
  refine ⟨?_, ?_, ?_⟩
  · obtain ⟨e, he⟩ := hl.2.2
    exact ⟨e, by simp [request, he]⟩
  · simp [request, hl.1]
  · have hd := hl.2.1
    simp only [Nat.zero_add] at hd
    simp [request, hd]

/-- Witness for C1: with `retries = 3` and every attempt failing logically,
exactly 3 attempts are made and the sleeps are 100 ms then 200 ms. -/
theorem request_all_fail_attempts_and_backoff_witness :
    (∃ e, (request (mkSDK "http://api.test" none 30 3) "GET" "/api/agents" none
        alwaysFail).result = .err e) ∧
    (request (mkSDK "http://api.test" none 30 3) "GET" "/api/agents" none
        alwaysFail).attempts = 3 ∧
    (request (mkSDK "http://api.test" none 30 3) "GET" "/api/agents" none
        alwaysFail).delaysMs = [100, 200] := by
  have h := request_all_fail_attempts_and_backoff (mkSDK "http://api.test" none 30 3)
    "GET" "/api/agents" none alwaysFail
    (fun _ => ⟨.valueError (.str "Request failed"), rfl⟩)
  exact ⟨h.1, h.2.1, by rw [h.2.2]; rfl⟩

/-- Claim C2: whatever the configured `retries`, a `_request` call whose
first attempt returns an envelope with `success = true` issues exactly one
HTTP attempt, sleeps never, and returns the envelope's `data` field
unmodified.  (`1 ≤ retries` states that a first attempt is issued at
all.) -/
theorem request_first_attempt_success (sdk : PiBuilderSDK) (method path : String)
    (body : Option (List (String × Json))) (outcomes : Nat → AttemptOutcome)
    (fields : List (String × Json)) (d : Json)
    (hr : 1 ≤ sdk.retries)
    (h0 : outcomes 0 = .response (.obj fields))
    (hs : lookupField fields "success" = some (.bool true))
    (hd : lookupField fields "data" = some d) :
    (request sdk method path body outcomes).result = .ok d ∧
    (request sdk method path body outcomes).attempts = 1 ∧
    (request sdk method path body outcomes).delaysMs = [] := by
  obtain ⟨r, hr2⟩ : ∃ r, sdk.retries = r + 1 := ⟨sdk.retries - 1, by omega⟩
  have hstep : attemptStep (outcomes 0) = .ok d := by
    simp [attemptStep, h0, hs, hd, Json.truthy]
  have hrun := runLoop_first_ok outcomes 0 d hstep r none
  refine ⟨?_, ?_, ?_⟩ <;> simp [request, hr2, hrun]

/-- Witness for C2: with `retries = 3` and a first attempt that succeeds
with data `"D"`, the call returns `"D"` after exactly one attempt and no
sleep. -/
theorem request_first_attempt_success_witness :
    (request (mkSDK "http://api.test" none 30 3) "GET" "/api/agents" none
        alwaysOk).result = .ok (.str "D") ∧
    (request (mkSDK "http://api.test" none 30 3) "GET" "/api/agents" none
        alwaysOk).attempts = 1 ∧
    (request (mkSDK "http://api.test" none 30 3) "GET" "/api/agents" none
        alwaysOk).delaysMs = [] :=
  request_first_attempt_success (mkSDK "http://api.test" none 30 3) "GET" "/api/agents"
    none alwaysOk [("success", Json.bool true), ("data", Json.str "D")] (.str "D")
    (by decide) rfl rfl rfl


/-- Claim C3 (amended): when every attempt yields a failing envelope, the
terminal failure is `ValueError(envelope.get('error', 'Request failed'))`;
hence a server error string `"X"` is preserved verbatim, and the generic
fallback message appears when the `error` field is absent.  (When `error`
is present but `null`, the code raises `ValueError(None)` — message
`"None"` — not the generic fallback; see the counterexample.) -/
theorem request_terminal_error_message (sdk : PiBuilderSDK) (method path : String)
    (body : Option (List (String × Json))) (outcomes : Nat → AttemptOutcome)
    (fields : List (String × Json))
    (hr : 1 ≤ sdk.retries)
    (hall : ∀ i, outcomes i = .response (.obj fields))
    (hfail : ((lookupField fields "success").getD Json.null).truthy = false) :
    (request sdk method path body outcomes).result =
      .err (.valueError ((lookupField fields "error").getD (.str "Request failed"))) ∧
    (∀ X, lookupField fields "error" = some (.str X) →
      (request sdk method path body outcomes).errMessage = some X) ∧
    (lookupField fields "error" = none →
      (request sdk method path body outcomes).errMessage = some "Request failed") := by
  have hstep : ∀ i, attemptStep (outcomes i) =
      .error (.valueError ((lookupField fields "error").getD (.str "Request failed"))) := by
    intro i
    simp [attemptStep, hall i, hfail]
  obtain ⟨r, hr2⟩ : ∃ r, sdk.retries = r + 1 := ⟨sdk.retries - 1, by omega⟩
  obtain ⟨e, he⟩ :=
    (runLoop_all_fail outcomes (fun i => ⟨_, hstep i⟩) sdk.retries 0 none).2.2
  have he2 : (runLoop outcomes (r + 1) 0 none).outcome = .err e := by
    rw [← hr2]; exact he
  have hlast := runLoop_err_from_last outcomes r 0 none e he2
  rw [hstep (0 + r)] at hlast
  have heq : e = .valueError ((lookupField fields "error").getD (.str "Request failed")) := by
    cases hlast
    rfl
  have hres : (request sdk method path body outcomes).result =
      .err (.valueError ((lookupField fields "error").getD (.str "Request failed"))) := by
    rw [← heq]
    simpa [request, hr2] using he2
  refine ⟨hres, ?_, ?_⟩
  · intro X hX
    simp [RequestTrace.errMessage, hres, hX, PyError.message, Json.pyStr]
  · intro hnone
    simp [RequestTrace.errMessage, hres, hnone, PyError.message, Json.pyStr]

/-- Witness for C3 (amended): with `retries = 2` and every attempt
answering `{success: false, error: "boom"}`, the terminal failure's message
is exactly `"boom"`. -/
theorem request_terminal_error_message_witness :
    (request (mkSDK "http://api.test" none 30 2) "GET" "/api/tasks" none
        alwaysBoom).errMessage = some "boom" :=
  (request_terminal_error_message (mkSDK "http://api.test" none 30 2) "GET" "/api/tasks"
    none alwaysBoom [("success", Json.bool false), ("error", Json.str "boom")]
    (by decide) (fun _ => rfl) rfl).2.1 "boom" rfl

/-- Counterexample to C3 as stated: an envelope whose `error` field is
present but `null` does not produce the generic fallback message — the code
raises `ValueError(None)`, whose message is `"None"`, because
`data.get('error', 'Request failed')` only falls back when the key is
absent. -/
theorem request_null_error_message_not_fallback :
    (request (mkSDK "http://api.test" none 30 2) "GET" "/api/tasks" none
        alwaysNullError).errMessage = some "None" ∧
    "None" ≠ "Request failed" :=
  ⟨rfl, by decide⟩

/-- Claim C4 (amended): whenever a `_request` call with at least one
configured attempt terminates in a failure, the error raised is exactly the
error recorded from the last attempt (the defensive generic branch never
fires for `retries ≥ 1`).  With `retries = 0` the defensive branch is
reachable; see the counterexample. -/
theorem request_failure_raises_last_attempt_error (sdk : PiBuilderSDK) (method path : String)
    (body : Option (List (String × Json))) (outcomes : Nat → AttemptOutcome) (e : PyError)
    (hr : 1 ≤ sdk.retries)
    (he : (request sdk method path body outcomes).result = .err e) :
    attemptStep (outcomes (sdk.retries - 1)) = .error e := by
  obtain ⟨r, hr2⟩ : ∃ r, sdk.retries = r + 1 := ⟨sdk.retries - 1, by omega⟩
  have he2 : (runLoop outcomes (r + 1) 0 none).outcome = .err e := by
    simpa [request, hr2] using he
  have hlast := runLoop_err_from_last outcomes r 0 none e he2
  simpa [hr2] using hlast

/-- Witness for C4 (amended): with `retries = 2` and all attempts failing
with `{success: false, error: "boom"}`, the terminal error is the one the
final attempt (index 1) recorded. -/
theorem request_failure_raises_last_attempt_error_witness :
    attemptStep (alwaysBoom 1) = .error (.valueError (.str "boom")) :=
  request_failure_raises_last_attempt_error (mkSDK "http://api.test" none 30 2) "GET"
    "/api/tasks" none alwaysBoom (.valueError (.str "boom")) (by decide) rfl

/-- Counterexample to C4 as stated: the defensive `Exception('Request
failed')` branch is reachable — with `retries = 0` the loop body never
runs, no attempt error is recorded, and the generic error is raised (even
against a server that would have answered successfully). -/
theorem request_zero_retries_defensive_error :
    (request (mkSDK "http://api.test" none 30 0) "GET" "/health" none alwaysOk).result
      = .err (.exception "Request failed") ∧
    (request (mkSDK "http://api.test" none 30 0) "GET" "/health" none alwaysOk).attempts = 0 :=
  ⟨rfl, rfl⟩


/-- Claim C5 (amended): every request carries the JSON content-type header,
and `Authorization: Bearer <key>` is present exactly when a non-empty API
key was configured; when the key is absent — or empty, since `if
self.api_key:` tests Python truthiness — no Authorization header is
sent. -/
theorem auth_header_iff_nonempty_key (sdk : PiBuilderSDK) (method path : String)
    (body : Option (List (String × Json))) (outcomes : Nat → AttemptOutcome) :
    (∀ k, sdk.api_key = some k → k ≠ "" →
      lookupField (request sdk method path body outcomes).headers "Authorization"
        = some ("Bearer " ++ k)) ∧
    ((sdk.api_key = none ∨ sdk.api_key = some "") →
      lookupField (request sdk method path body outcomes).headers "Authorization"
        = none) := by
  constructor
  · intro k hk hne
    simp [request, requestHeaders, hk, hne, lookupField]
  · rintro (hk | hk) <;> simp [request, requestHeaders, hk, lookupField]

/-- Witness for C5 (amended): with key `"secret"` the request carries
`Authorization: Bearer secret`. -/
theorem auth_header_iff_nonempty_key_witness :
    lookupField (request (mkSDK "http://api.test" (some "secret") 30 3) "GET" "/api/agents"
        none alwaysOk).headers "Authorization" = some "Bearer secret" :=
  (auth_header_iff_nonempty_key (mkSDK "http://api.test" (some "secret") 30 3) "GET"
    "/api/agents" none alwaysOk).1 "secret" rfl (by decide)

/-- Counterexample to C5 as stated: an API key *was* supplied at
construction — the empty string — yet the request carries no Authorization
header, because `if self.api_key:` treats the empty string like `None`. -/
theorem auth_header_missing_for_empty_key :
    (mkSDK "http://api.test" (some "") 30 3).api_key = some "" ∧
    lookupField (request (mkSDK "http://api.test" (some "") 30 3) "GET" "/api/agents" none
        alwaysOk).headers "Authorization" = none :=
  ⟨rfl, rfl⟩

/-- Claim C6: a `_request` call attaches a JSON-serialized payload iff the
body argument is present and non-empty; an absent body or an empty body
mapping (both falsy in `if body else None`) sends no payload at all. -/
theorem body_payload_iff_nonempty (sdk : PiBuilderSDK) (method path : String)
    (body : Option (List (String × Json))) (outcomes : Nat → AttemptOutcome) :
    ((request sdk method path body outcomes).bodyData = none ↔
      body = none ∨ body = some []) ∧
    (∀ fields, body = some fields → fields ≠ [] →
      (request sdk method path body outcomes).bodyData
        = some (Json.dump (.obj fields))) := by
  constructor
  · constructor
    · intro h
      cases body with
      | none => exact Or.inl rfl
      | some fields =>
        cases fields with
        | nil => exact Or.inr rfl
        | cons f fs => simp [request, requestBodyData] at h
    · rintro (h | h) <;> simp [request, requestBodyData, h]
  · intro fields hb hne
    subst hb
    cases fields with
    | nil => exact absurd rfl hne
    | cons f fs => simp [request, requestBodyData]

/-- Witness for C6: a one-field body is serialized and attached; an empty
body mapping is sent with no payload. -/
theorem body_payload_iff_nonempty_witness :
    (request (mkSDK "http://api.test" none 30 3) "POST" "/api/tasks"
        (some [("name", Json.str "t")]) alwaysOk).bodyData
      = some "\x7b\x22name\x22: \x22t\x22\x7d" ∧
    (request (mkSDK "http://api.test" none 30 3) "PUT" "/api/tasks/t1" (some [])
        alwaysOk).bodyData = none :=
  ⟨(body_payload_iff_nonempty (mkSDK "http://api.test" none 30 3) "POST" "/api/tasks"
      (some [("name", Json.str "t")]) alwaysOk).2 [("name", Json.str "t")] rfl
      (List.cons_ne_nil _ _),
    (body_payload_iff_nonempty (mkSDK "http://api.test" none 30 3) "PUT" "/api/tasks/t1"
      (some []) alwaysOk).1.mpr (Or.inr rfl)⟩


/-- A successful envelope whose `data` holds a providers map. -/
def providersData : Nat → AttemptOutcome := fun _ =>
  .response (Json.obj [("success", Json.bool true),
    ("data", Json.obj [("providers", Json.arr [Json.str "anthropic"])])])

/-- Claim C7: when the envelope reports success and its `data` field is
`null` or absent, `list_agents` and `list_tasks` return an empty list
(`data or []` substitutes the empty list) rather than failing. -/
theorem list_null_data_returns_empty (sdk : PiBuilderSDK) (outcomes : Nat → AttemptOutcome)
    (fields : List (String × Json)) (status priority : Option String)
    (hr : 1 ≤ sdk.retries)
    (h0 : outcomes 0 = .response (.obj fields))
    (hs : lookupField fields "success" = some (.bool true))
    (hd : lookupField fields "data" = none ∨ lookupField fields "data" = some .null) :
    list_agents sdk outcomes = .ok [] ∧
    list_tasks sdk status priority outcomes = .ok [] := by
  have hdata : (lookupField fields "data").getD Json.null = Json.null := by
    rcases hd with h | h <;> simp [h]
  have hstep : attemptStep (outcomes 0) = .ok Json.null := by
    simp [attemptStep, h0, hs, Json.truthy, hdata]
  obtain ⟨r, hr2⟩ : ∃ r, sdk.retries = r + 1 := ⟨sdk.retries - 1, by omega⟩
  have hrun := runLoop_first_ok outcomes 0 Json.null hstep r none
  constructor
  · simp only [list_agents, list_agentsCall, request, hr2, hrun, pyOr, Json.truthy,
      jsonIter]
    rfl
  · simp only [list_tasks, list_tasksCall, request, hr2, hrun, pyOr, Json.truthy,
      jsonIter]
    rfl

/-- Witness for C7: a successful envelope with no `data` field gives empty
agent and task lists. -/
theorem list_null_data_returns_empty_witness :
    list_agents (mkSDK "http://api.test" none 30 3) alwaysNullData = .ok [] ∧
    list_tasks (mkSDK "http://api.test" none 30 3) none none alwaysNullData = .ok [] :=
  list_null_data_returns_empty (mkSDK "http://api.test" none 30 3) alwaysNullData
    [("success", Json.bool true)] none none (by decide) rfl rfl (Or.inl rfl)

/-- Claim C8 (amended): the `update_task` body contains exactly the
non-empty supplied fields — `status` appears iff a non-empty status was
supplied, `priority` appears iff a non-empty priority was supplied, and no
other key ever appears; in particular `update_task(id, status="done")`
sends exactly `{"status": "done"}`.  (An empty-string argument is
omitted like an absent one, because `if status:` / `if priority:` test
Python truthiness; see the counterexample.) -/
theorem update_task_body_exact_nonempty_fields (sdk : PiBuilderSDK) (task_id : String)
    (status priority : Option String) (outcomes : Nat → AttemptOutcome) :
    (∀ s, status = some s → s ≠ "" →
      lookupField (update_task_body status priority) "status" = some (.str s)) ∧
    ((status = none ∨ status = some "") →
      lookupField (update_task_body status priority) "status" = none) ∧
    (∀ p, priority = some p → p ≠ "" →
      lookupField (update_task_body status priority) "priority" = some (.str p)) ∧
    ((priority = none ∨ priority = some "") →
      lookupField (update_task_body status priority) "priority" = none) ∧
    (∀ f ∈ update_task_body status priority, f.1 = "status" ∨ f.1 = "priority") ∧
    update_task_body (some "done") none = [("status", Json.str "done")] ∧
    (update_taskCall sdk task_id (some "done") none outcomes).bodyData
      = some (Json.dump (.obj [("status", Json.str "done")])) := by
  refine ⟨?_, ?_, ?_, ?_, ?_, rfl, rfl⟩
  · intro s hsv hne
    subst hsv
    simp [update_task_body, lookupField, hne]
  · rintro (h | h) <;> subst h <;>
      cases priority with
      | none => rfl
      | some p =>
        by_cases hp : p = "" <;> simp [update_task_body, lookupField, hp]
  · intro p hpv hne
    subst hpv
    cases status with
    | none => simp [update_task_body, lookupField, hne]
    | some s =>
      by_cases hs : s = "" <;> simp [update_task_body, lookupField, hne, hs]
  · rintro (h | h) <;> subst h <;>
      cases status with
      | none => rfl
      | some s =>
        by_cases hs : s = "" <;> simp [update_task_body, lookupField, hs]
  · intro f hf
    simp only [update_task_body, List.mem_append] at hf
    rcases hf with hf | hf
    · cases status with
      | none => simp at hf
      | some s =>
        by_cases hs : s = "" <;> simp [hs] at hf
        subst hf
        exact Or.inl rfl
    · cases priority with
      | none => simp at hf
      | some p =>
        by_cases hp : p = "" <;> simp [hp] at hf
        subst hf
        exact Or.inr rfl

/-- Witness for C8 (amended): `update_task(id, status="done")` sends a body
holding only the status field, and a supplied non-empty priority does
appear. -/
theorem update_task_body_exact_nonempty_fields_witness :
    update_task_body (some "done") none = [("status", Json.str "done")] ∧
    lookupField (update_task_body (some "done") (some "high")) "priority"
      = some (Json.str "high") :=
  ⟨(update_task_body_exact_nonempty_fields (mkSDK "http://api.test" none 30 3) "t1"
      (some "done") none alwaysOk).2.2.2.2.2.1,
    (update_task_body_exact_nonempty_fields (mkSDK "http://api.test" none 30 3) "t1"
      (some "done") (some "high") alwaysOk).2.2.1 "high" rfl (by decide)⟩

/-- Counterexample to C8 as stated: `update_task(id, status="")` supplies a
status, yet the body omits the status field entirely (and the request is
sent with no body at all). -/
theorem update_task_empty_status_not_in_body :
    (some "" : Option String).isSome = true ∧
    lookupField (update_task_body (some "") none) "status" = none ∧
    (update_taskCall (mkSDK "http://api.test" none 30 3) "t1" (some "") none
        alwaysOk).bodyData = none :=
  ⟨rfl, rfl, rfl⟩

/-- Claim C9 (amended): on a successful envelope whose `data` is a map,
`list_providers` returns the map's `providers` field, or an empty list when
that field is missing.  When `data` is `null`/absent (or any non-dict), the
method does *not* return an empty list: `data.get('providers', [])` raises
`AttributeError`; see the counterexample. -/
theorem list_providers_map_data (sdk : PiBuilderSDK) (outcomes : Nat → AttemptOutcome)
    (fields dataFields : List (String × Json))
    (hr : 1 ≤ sdk.retries)
    (h0 : outcomes 0 = .response (.obj fields))
    (hs : lookupField fields "success" = some (.bool true))
    (hd : lookupField fields "data" = some (.obj dataFields)) :
    list_providers sdk outcomes
      = .ok ((lookupField dataFields "providers").getD (.arr [])) := by
  obtain ⟨r, hr2⟩ : ∃ r, sdk.retries = r + 1 := ⟨sdk.retries - 1, by omega⟩
  have hstep : attemptStep (outcomes 0) = .ok (.obj dataFields) := by
    simp [attemptStep, h0, hs, hd, Json.truthy]
  have hrun := runLoop_first_ok outcomes 0 (.obj dataFields) hstep r none
  simp [list_providers, list_providersCall, request, hr2, hrun]

/-- Witness for C9 (amended): a providers map is unwrapped to its
`providers` list. -/
theorem list_providers_map_data_witness :
    list_providers (mkSDK "http://api.test" none 30 3) providersData
      = .ok (Json.arr [Json.str "anthropic"]) :=
  list_providers_map_data (mkSDK "http://api.test" none 30 3) providersData
    [("success", Json.bool true),
      ("data", Json.obj [("providers", Json.arr [Json.str "anthropic"])])]
    [("providers", Json.arr [Json.str "anthropic"])] (by decide) rfl rfl rfl

/-- Counterexample to C9 as stated: a successful envelope with no `data`
field makes `list_providers` fail with `AttributeError` (Python `None` has
no `get` method) instead of returning an empty list. -/
theorem list_providers_null_data_raises :
    alwaysNullData 0 = .response (Json.obj [("success", Json.bool true)]) ∧
    list_providers (mkSDK "http://api.test" none 30 3) alwaysNullData
      = .error (.attributeError
          "'NoneType' object has no attribute 'get'") :=
  ⟨rfl, rfl⟩

/-- Claim C10: an empty-string `status` or `priority` argument behaves
exactly like an absent one — it is dropped from the `list_tasks` query
string and from the `update_task` body; `update_task(id, status="")`
builds an empty body mapping, which `_request` (where `if body:` is falsy
on an empty dict) sends with no body at all. -/
theorem empty_string_filter_like_absent (sdk : PiBuilderSDK) (task_id : String)
    (other : Option String) (outcomes : Nat → AttemptOutcome) :
    list_tasks_path (some "") other = list_tasks_path none other ∧
    list_tasks_path other (some "") = list_tasks_path other none ∧
    update_task_body (some "") other = update_task_body none other ∧
    update_task_body other (some "") = update_task_body other none ∧
    update_task_body (some "") none = [] ∧
    (update_taskCall sdk task_id (some "") none outcomes).bodyData = none ∧
    (list_tasksCall sdk (some "") none outcomes).url = sdk.api_url ++ "/api/tasks" := by
  refine ⟨?_, ?_, ?_, ?_, rfl, rfl, rfl⟩ <;> simp [list_tasks_path, update_task_body]

end PiBuilder
